import Mathlib

/-!
Shallow embedding of the serializer layer of alx_travel_app
(src/alx_travel_app/listings/serializers.py): the review rating
validator, the booking cross-field validator, and the booking create and
update operations as state transformers over an explicit database state.

Modelling conventions:
- Dates are integers (days since an arbitrary epoch); subtracting two
  Python date objects and taking .days is integer subtraction.
- Money is an integer; nothing proved here depends on decimals.
- Booking statuses are the literal strings the code compares against.
- The incoming data dict is a record of Option fields, mirroring
  data.get(...). Python truthiness of an integer field is
  "present and nonzero"; truthiness of a date object is presence.
- Raising serializers.ValidationError is returning Except.error; the
  only effect of a successful create or update is the database carried
  in Except.ok, so a raised error leaves the stored state untouched.
- Identity-only fields (user_id, special_requests and the read-only
  representation fields) play no part in any claim and are omitted.
- total_price is in read_only_fields of BookingSerializer.Meta, so it is
  never client-writable: BookingData has no total_price entry.
-/

namespace AlxTravel

/-- A row of the Listing table, restricted to the fields the serializer
logic reads. -/
structure Listing where
  id : Int
  price_per_night : Int
  max_guests : Int
deriving DecidableEq

/-- A row of the Booking table, restricted to the fields the serializer
logic reads or writes. -/
structure Booking where
  id : Int
  listing_id : Int
  check_in_date : Int
  check_out_date : Int
  guests : Int
  total_price : Int
  status : String
deriving DecidableEq

/-- The database state the serializer layer queries and writes. -/
structure DB where
  listings : List Listing
  bookings : List Booking
deriving DecidableEq

/-- The writable entries of the incoming data dict for BookingSerializer:
each is Option, mirroring data.get(key). -/
structure BookingData where
  check_in_date : Option Int := none
  check_out_date : Option Int := none
  guests : Option Int := none
  listing_id : Option Int := none
  status : Option String := none
deriving DecidableEq

/-- Python truthiness of an optional integer: present and nonzero. -/
def intTruthy : Option Int → Bool
  | none => false
  | some v => v != 0

/-- Listing.objects.get(id=i): first row with matching id, none when the
lookup raises Listing.DoesNotExist. -/
def getListing (db : DB) (i : Int) : Option Listing :=
  db.listings.find? (fun l => l.id == i)

/-- ReviewSerializer.validate_rating: reject unless 1 <= value <= 5,
otherwise return the value unchanged. -/
def validate_rating (value : Int) : Except String Int :=
  if ¬(1 ≤ value ∧ value ≤ 5) then
    Except.error "Rating must be between 1 and 5."
  else
    Except.ok value

/-- The first block of BookingSerializer.validate: when both dates are
present (date objects are always truthy), reject checkout before or equal
to checkin, then reject a past checkin. -/
def checkDates (today : Int) (check_in check_out : Option Int) :
    Except String Unit :=
  match check_in, check_out with
  | some cin, some cout =>
    if cout ≤ cin then
      Except.error "Check-out date must be after check-in date."
    else if cin < today then
      Except.error "Check-in date cannot be in the past."
    else
      Except.ok ()
  | _, _ => Except.ok ()

/-- The second block of BookingSerializer.validate: when listing_id and
guests are both truthy integers, look the listing up and reject when
guests exceed max_guests, or when the lookup fails. -/
def checkCapacity (db : DB) (listing_id guests : Option Int) :
    Except String Unit :=
  match listing_id, guests with
  | some lid, some g =>
    if lid != 0 && g != 0 then
      match getListing db lid with
      | some listing =>
        if g > listing.max_guests then
          Except.error "Number of guests exceeds maximum capacity."
        else
          Except.ok ()
      | none => Except.error "Invalid listing ID."
    else
      Except.ok ()
  | _, _ => Except.ok ()

/-- The filter body of the conflicting-bookings query: same listing,
status confirmed or pending, check_in_date < checkout and
check_out_date > checkin. -/
def conflictPred (lid cin cout : Int) (b : Booking) : Bool :=
  b.listing_id == lid &&
  (b.status == "confirmed" || b.status == "pending") &&
  b.check_in_date < cout &&
  b.check_out_date > cin

/-- The conflicting-bookings queryset, with the exclude(id=instance.id)
step applied when an instance is being updated. -/
def conflictingBookings (db : DB) (lid cin cout : Int) (inst : Option Int) :
    List Booking :=
  let cb := db.bookings.filter (conflictPred lid cin cout)
  match inst with
  | some iid => cb.filter (fun b => b.id != iid)
  | none => cb

/-- The booking b survives the exclude(id=instance.id) step. -/
def notExcluded (inst : Option Int) (b : Booking) : Bool :=
  match inst with
  | some iid => b.id != iid
  | none => true

/-- The third block of BookingSerializer.validate: when both dates are
present and listing_id is truthy, reject when the conflicting-bookings
queryset is nonempty. -/
def checkConflicts (db : DB) (inst : Option Int)
    (check_in check_out listing_id : Option Int) : Except String Unit :=
  match check_in, check_out, listing_id with
  | some cin, some cout, some lid =>
    if lid != 0 then
      if (conflictingBookings db lid cin cout inst).isEmpty then
        Except.ok ()
      else
        Except.error "Listing is not available for the selected dates."
    else
      Except.ok ()
  | _, _, _ => Except.ok ()

/-- BookingSerializer.validate: the three blocks in source order, each
able to raise, and the data returned unchanged when none raises. inst is
the id of self.instance when this is an update. -/
def validate (db : DB) (today : Int) (inst : Option Int)
    (data : BookingData) : Except String BookingData :=
  match checkDates today data.check_in_date data.check_out_date with
  | Except.error e => Except.error e
  | Except.ok _ =>
    match checkCapacity db data.listing_id data.guests with
    | Except.error e => Except.error e
    | Except.ok _ =>
      match checkConflicts db inst data.check_in_date data.check_out_date
          data.listing_id with
      | Except.error e => Except.error e
      | Except.ok _ => Except.ok data

/-- BookingSerializer.create after a successful validate: look the
listing up (an unhandled Listing.DoesNotExist when absent), set
total_price to price_per_night times the night count, and persist the
new row. The framework guarantees the required write fields are present
at creation; their absence is an error here. newId is the primary key
the persistence layer assigns. -/
def createBooking (db : DB) (today : Int) (newId : Int)
    (data : BookingData) : Except String DB :=
  match validate db today none data with
  | Except.error e => Except.error e
  | Except.ok vd =>
    match vd.listing_id, vd.check_in_date, vd.check_out_date with
    | some lid, some cin, some cout =>
      match getListing db lid with
      | none => Except.error "Listing matching query does not exist."
      | some listing =>
        let newBooking : Booking :=
          { id := newId, listing_id := lid, check_in_date := cin,
            check_out_date := cout, guests := vd.guests.getD 1,
            total_price := listing.price_per_night * (cout - cin),
            status := vd.status.getD "pending" }
        Except.ok { db with bookings := db.bookings ++ [newBooking] }
    | _, _, _ => Except.error "required field missing"

/-- The default ModelSerializer.update applied to one booking: each
entry present in validated_data overwrites the matching attribute;
total_price is read-only and never present, so it is untouched. -/
def applyUpdate (b : Booking) (d : BookingData) : Booking :=
  { b with
    listing_id := d.listing_id.getD b.listing_id
    check_in_date := d.check_in_date.getD b.check_in_date
    check_out_date := d.check_out_date.getD b.check_out_date
    guests := d.guests.getD b.guests
    status := d.status.getD b.status }

/-- Updating booking instId through the serializer: validate with
self.instance set, then write the updated attributes of that row. -/
def updateBooking (db : DB) (today : Int) (instId : Int)
    (data : BookingData) : Except String DB :=
  if (db.bookings.find? (fun b => b.id == instId)).isSome then
    match validate db today (some instId) data with
    | Except.error e => Except.error e
    | Except.ok vd =>
      let newBookings := db.bookings.map
        (fun b => if b.id == instId then applyUpdate b vd else b)
      Except.ok { db with bookings := newBookings }
  else
    Except.error "instance not found"

/-- An operation a caller can drive through BookingSerializer. -/
inductive Op where
  | create (newId : Int) (data : BookingData)
  | update (instId : Int) (data : BookingData)
deriving DecidableEq

/-- The state after one operation: the new state on success, the old
state when a validation error was raised. -/
def applyOp (today : Int) (db : DB) : Op → DB
  | Op.create nid d =>
    match createBooking db today nid d with
    | Except.ok db2 => db2
    | Except.error _ => db
  | Op.update iid d =>
    match updateBooking db today iid d with
    | Except.ok db2 => db2
    | Except.error _ => db

/-- The operation succeeded (no validation error raised). -/
def opOk (today : Int) (db : DB) : Op → Bool
  | Op.create nid d => (createBooking db today nid d).toBool
  | Op.update iid d => (updateBooking db today iid d).toBool

/-- Every operation of the list succeeds, each against the state the
previous ones produced. -/
def allOk (today : Int) : DB → List Op → Bool
  | _, [] => true
  | db, op :: rest => opOk today db op && allOk today (applyOp today db op) rest

/-- The state after a list of operations. -/
def runOps (today : Int) (db : DB) (ops : List Op) : DB :=
  ops.foldl (applyOp today) db

/-- A status counted by the conflict query: pending or confirmed. -/
def activeB (s : String) : Bool :=
  s == "confirmed" || s == "pending"

/-- Bookings b1 and b2 are on the same listing, both active, and their
half-open ranges intersect. -/
def overlapB (b1 b2 : Booking) : Bool :=
  activeB b2.status &&
  conflictPred b2.listing_id b2.check_in_date b2.check_out_date b1

/-- No two bookings with distinct ids overlap (same listing, both
pending or confirmed, intersecting half-open ranges). -/
def noOverlapB (db : DB) : Bool :=
  db.bookings.all (fun b1 => db.bookings.all
    (fun b2 => b1.id == b2.id || !(overlapB b1 b2)))

/-- Side condition under which one operation provably preserves the
no-overlap invariant: any create; an update only when its data carries
both dates and a truthy listing reference, since otherwise the conflict
check is skipped. -/
def opGood : Op → Prop
  | Op.create _ _ => True
  | Op.update _ d =>
      d.check_in_date.isSome = true ∧ d.check_out_date.isSome = true ∧
      intTruthy d.listing_id = true

/-! Concrete fixtures used by witness and counterexample theorems. Each
is a small database or data dict evaluated at a single claim. -/

/-- A one-listing database: listing 1, 100 per night, capacity 4. -/
def oneListingDB : DB :=
  { listings := [{ id := 1, price_per_night := 100, max_guests := 4 }],
    bookings := [] }

/-- A pending booking of listing 1 for days 1 to 5. -/
def bookingJan15 : Booking :=
  { id := 1, listing_id := 1, check_in_date := 1, check_out_date := 5,
    guests := 2, total_price := 400, status := "pending" }

/-- The one-listing database with bookingJan15 stored. -/
def busyDB : DB :=
  { listings := [{ id := 1, price_per_night := 100, max_guests := 4 }],
    bookings := [bookingJan15] }

/-- Candidate data for listing 1, days 4 to 8. -/
def dataJan48 : BookingData :=
  { check_in_date := some 4, check_out_date := some 8, guests := some 2,
    listing_id := some 1, status := some "pending" }

/-- Candidate data for listing 1, days 5 to 8. -/
def dataJan58 : BookingData :=
  { check_in_date := some 5, check_out_date := some 8, guests := some 2,
    listing_id := some 1, status := some "pending" }

/-- Candidate data for listing 1, days 3 to 3 (empty range). -/
def dataDay33 : BookingData :=
  { check_in_date := some 3, check_out_date := some 3, guests := some 2,
    listing_id := some 1, status := some "pending" }

/-- Candidate data for listing 1, days 2 to 3 (one night). -/
def dataDay23 : BookingData :=
  { check_in_date := some 2, check_out_date := some 3, guests := some 2,
    listing_id := some 1, status := some "pending" }

/-- Candidate data for listing 1, days 4 to 2 (checkout before checkin). -/
def dataBackwards : BookingData :=
  { check_in_date := some 4, check_out_date := some 2, guests := some 2,
    listing_id := some 1, status := some "pending" }

/-- Candidate data for listing 1, days 1 to 4, 2 guests. -/
def dataJan14 : BookingData :=
  { check_in_date := some 1, check_out_date := some 4, guests := some 2,
    listing_id := some 1, status := some "pending" }

/-- Candidate data for listing 1 with 5 guests. -/
def dataFiveGuests : BookingData :=
  { check_in_date := some 2, check_out_date := some 3, guests := some 5,
    listing_id := some 1, status := some "pending" }

/-- Candidate data for listing 1 with 4 guests. -/
def dataFourGuests : BookingData :=
  { check_in_date := some 2, check_out_date := some 3, guests := some 4,
    listing_id := some 1, status := some "pending" }

/-- Data that only sets the status, as a PATCH of the status field sends. -/
def dataStatusOnly (s : String) : BookingData :=
  { status := some s }

/-- The operation sequence of the C2 counterexample: create a pending
booking, cancel it by a status-only update, create a second overlapping
pending booking (the first no longer blocks it), then flip the first
back to pending by another status-only update, which skips the conflict
check because the data carries no dates and no listing. -/
def cexOps : List Op :=
  [Op.create 1 dataJan14,
   Op.update 1 (dataStatusOnly "cancelled"),
   Op.create 2 dataJan14,
   Op.update 1 (dataStatusOnly "pending")]

/-- The row stored by creating the days 1 to 4 booking on the
100-per-night listing. -/
def bookingJan14Stored : Booking :=
  { id := 1, listing_id := 1, check_in_date := 1, check_out_date := 4,
    guests := 2, total_price := 300, status := "pending" }

/-- The database after creating the days 1 to 4 booking on the
100-per-night listing. -/
def afterJan14DB : DB :=
  { listings := [{ id := 1, price_per_night := 100, max_guests := 4 }],
    bookings := [bookingJan14Stored] }

/-- The stored booking of busyDB with its status switched to confirmed. -/
def bookingJan15Confirmed : Booking :=
  { id := 1, listing_id := 1, check_in_date := 1, check_out_date := 5,
    guests := 2, total_price := 400, status := "confirmed" }

/-- The busy database after the stored booking is switched to confirmed
status by an update. -/
def confirmedDB : DB :=
  { listings := [{ id := 1, price_per_night := 100, max_guests := 4 }],
    bookings := [bookingJan15Confirmed] }

/-! Helper lemmas shared by the claim theorems. -/

lemma exceptUnit_cases (x : Except String Unit) :
    x = Except.ok () ∨ ∃ e, x = Except.error e := by
  cases x with
  | ok u => cases u; exact Or.inl rfl
  | error e => exact Or.inr ⟨e, rfl⟩

lemma validate_isOk_eq (db : DB) (today : Int) (inst : Option Int)
    (d : BookingData) :
    (validate db today inst d).isOk =
      ((checkDates today d.check_in_date d.check_out_date).isOk &&
       (checkCapacity db d.listing_id d.guests).isOk &&
       (checkConflicts db inst d.check_in_date d.check_out_date
         d.listing_id).isOk) := by
  rcases exceptUnit_cases (checkDates today d.check_in_date d.check_out_date)
      with h1 | ⟨e1, h1⟩ <;>
    rcases exceptUnit_cases (checkCapacity db d.listing_id d.guests)
      with h2 | ⟨e2, h2⟩ <;>
    rcases exceptUnit_cases (checkConflicts db inst d.check_in_date
        d.check_out_date d.listing_id) with h3 | ⟨e3, h3⟩ <;>
    simp [validate, h1, h2, h3, Except.isOk, Except.toBool]

lemma validate_ok_iff (db : DB) (today : Int) (inst : Option Int)
    (d vd : BookingData) :
    validate db today inst d = Except.ok vd ↔
      (vd = d ∧
       checkDates today d.check_in_date d.check_out_date = Except.ok () ∧
       checkCapacity db d.listing_id d.guests = Except.ok () ∧
       checkConflicts db inst d.check_in_date d.check_out_date d.listing_id =
         Except.ok ()) := by
  rcases exceptUnit_cases (checkDates today d.check_in_date d.check_out_date)
      with h1 | ⟨e1, h1⟩ <;>
    rcases exceptUnit_cases (checkCapacity db d.listing_id d.guests)
      with h2 | ⟨e2, h2⟩ <;>
    rcases exceptUnit_cases (checkConflicts db inst d.check_in_date
        d.check_out_date d.listing_id) with h3 | ⟨e3, h3⟩ <;>
    simp [validate, h1, h2, h3, eq_comm]

/-- C5: for every integer rating value, validate_rating raises a
validation error if and only if the value is outside the closed interval
from 1 to 5; the values 1 and 5 are accepted and returned unchanged. -/
theorem rating_validator_iff (v : Int) :
    ((validate_rating v).isOk = false ↔ (v < 1 ∨ 5 < v)) ∧
    validate_rating 1 = Except.ok 1 ∧ validate_rating 5 = Except.ok 5 := by
  refine ⟨?_, rfl, rfl⟩
  unfold validate_rating
  split
  · rename_i h
    simp [Except.isOk, Except.toBool]
    omega
  · rename_i h
    simp [Except.isOk, Except.toBool]
    omega

/-- C10: when guests is 0, or listing_id is 0 or absent, the capacity
block of BookingSerializer.validate is skipped entirely, because the
guard tests Python truthiness rather than presence; such data is never
rejected by the capacity rule or the invalid-listing rule. -/
theorem falsy_guard_skips_capacity_check (db : DB) (d : BookingData)
    (h : d.guests = some 0 ∨ d.listing_id = some 0 ∨ d.listing_id = none) :
    checkCapacity db d.listing_id d.guests = Except.ok () := by
  rcases h with h | h | h
  · rw [h]
    cases hl : d.listing_id with
    | none => rfl
    | some lid => simp [checkCapacity]
  · rw [h]
    cases hg : d.guests with
    | none => rfl
    | some g => simp [checkCapacity]
  · rw [h]
    rfl

/-- Witness for C10 at a concrete input: guests 0 with a real listing
reference passes the capacity block untouched. -/
theorem falsy_guard_skips_capacity_check_witness :
    checkCapacity { listings := [], bookings := [] } (some 1) (some 0) =
      Except.ok () :=
  falsy_guard_skips_capacity_check { listings := [], bookings := [] }
    { guests := some 0, listing_id := some 1 } (Or.inl rfl)

/-- C7: a candidate booking carrying both dates is rejected by
BookingSerializer.validate whenever its check-in date is earlier than
the current date supplied by the clock. -/
theorem past_checkin_rejected (db : DB) (today : Int) (inst : Option Int)
    (d : BookingData) (cin cout : Int)
    (hcin : d.check_in_date = some cin) (hcout : d.check_out_date = some cout)
    (hpast : cin < today) :
    (validate db today inst d).isOk = false := by
  rw [validate_isOk_eq, hcin, hcout]
  have hd : (checkDates today (some cin) (some cout)).isOk = false := by
    simp only [checkDates]
    by_cases hle : cout ≤ cin
    · rw [if_pos hle]; rfl
    · rw [if_neg hle, if_pos hpast]; rfl
  simp [hd]

/-- Witness for C7 at a concrete input: check-in on day 1 with the clock
at day 5 is rejected. -/
theorem past_checkin_rejected_witness :
    (validate { listings := [], bookings := [] } 5 none
      { check_in_date := some 1, check_out_date := some 3 }).isOk = false :=
  past_checkin_rejected { listings := [], bookings := [] } 5 none
    { check_in_date := some 1, check_out_date := some 3 } 1 3 rfl rfl
    (by decide)

/-- C4: with both dates present, BookingSerializer.validate rejects
whenever checkout is less than or equal to checkin (equality included),
and a checkout of exactly checkin plus one day is not rejected by the
date-ordering rule: when the past-date, capacity and conflict rules also
pass, validate succeeds and returns the data unchanged. -/
theorem date_ordering_validation (db : DB) (today : Int) (inst : Option Int)
    (d : BookingData) (cin cout : Int)
    (hcin : d.check_in_date = some cin)
    (hcout : d.check_out_date = some cout) :
    (cout ≤ cin → (validate db today inst d).isOk = false) ∧
    (cout = cin + 1 → today ≤ cin →
      checkCapacity db d.listing_id d.guests = Except.ok () →
      checkConflicts db inst d.check_in_date d.check_out_date d.listing_id =
        Except.ok () →
      validate db today inst d = Except.ok d) := by
  constructor
  · intro hle
    rw [validate_isOk_eq, hcin, hcout]
    have hd : (checkDates today (some cin) (some cout)).isOk = false := by
      simp only [checkDates]
      rw [if_pos hle]
      rfl
    simp [hd]
  · intro h1 h2 hcap hconf
    rw [validate_ok_iff]
    refine ⟨rfl, ?_, hcap, hconf⟩
    rw [hcin, hcout]
    simp only [checkDates]
    rw [if_neg (by omega), if_neg (by omega)]

/-- Witness for C4 at concrete inputs: checkin equal to checkout on day 3
is rejected; a one-night stay from day 2 to day 3 validates. -/
theorem date_ordering_validation_witness :
    (validate oneListingDB 1 none dataDay33).isOk = false ∧
    validate oneListingDB 1 none dataDay23 = Except.ok dataDay23 :=
  ⟨(date_ordering_validation oneListingDB 1 none dataDay33 3 3 rfl rfl).1
     (by decide),
   (date_ordering_validation oneListingDB 1 none dataDay23 2 3 rfl rfl).2
     (by decide) (by decide) rfl rfl⟩

/-- C8: a validation error raised by BookingSerializer.validate aborts
the write: neither create nor update can then return a new database
state, so the stored records are exactly those of the state before the
call. In this embedding the only effect an operation has is the state
carried inside Except.ok, so an error result is the absence of any
change. -/
theorem rejected_write_changes_nothing (db : DB) (today nid iid : Int)
    (d : BookingData) :
    ((validate db today none d).isOk = false →
      (createBooking db today nid d).isOk = false) ∧
    ((validate db today (some iid) d).isOk = false →
      (updateBooking db today iid d).isOk = false) := by
  constructor
  · intro h
    unfold createBooking
    cases hv : validate db today none d with
    | error e => rfl
    | ok vd => rw [hv] at h; exact absurd h (by simp [Except.isOk, Except.toBool])
  · intro h
    unfold updateBooking
    split
    · cases hv : validate db today (some iid) d with
      | error e => rfl
      | ok vd => rw [hv] at h; exact absurd h (by simp [Except.isOk, Except.toBool])
    · rfl

/-- Witness for C8 at a concrete input: a candidate with checkout before
checkin is rejected, and both write paths return an error instead of a
new state. -/
theorem rejected_write_changes_nothing_witness :
    (createBooking busyDB 1 9 dataBackwards).isOk = false ∧
    (updateBooking busyDB 1 1 dataBackwards).isOk = false :=
  ⟨(rejected_write_changes_nothing busyDB 1 9 1 dataBackwards).1 (by decide),
   (rejected_write_changes_nothing busyDB 1 9 1 dataBackwards).2 (by decide)⟩

/-- C6: with a truthy listing reference and a guest count present, when
the reference resolves, validate rejects whenever guests exceed
max_guests, and a guest count equal to max_guests is never rejected by
the capacity block; when the reference resolves to nothing, validate
rejects as an invalid listing (the guest count must be truthy too, or
the guard skips the block: see the C10 theorem). -/
theorem capacity_validation (db : DB) (today : Int) (inst : Option Int)
    (d : BookingData) (lid g : Int) (L : Listing)
    (hlid : d.listing_id = some lid) (hg : d.guests = some g)
    (hlid0 : lid ≠ 0) :
    (getListing db lid = some L → 1 ≤ L.max_guests →
      ((L.max_guests < g → (validate db today inst d).isOk = false) ∧
       (g = L.max_guests →
         checkCapacity db d.listing_id d.guests = Except.ok ()))) ∧
    (getListing db lid = none → g ≠ 0 →
      (validate db today inst d).isOk = false) := by
  constructor
  · intro hL hmax
    constructor
    · intro hgt
      rw [validate_isOk_eq, hlid, hg]
      have hc : (checkCapacity db (some lid) (some g)).isOk = false := by
        simp only [checkCapacity]
        have hcond : (lid != 0 && g != 0) = true := by
          simp only [Bool.and_eq_true, bne_iff_ne, ne_eq]
          exact ⟨hlid0, by omega⟩
        rw [if_pos hcond, hL]
        show (if g > L.max_guests then
          (Except.error "Number of guests exceeds maximum capacity." :
            Except String Unit) else Except.ok ()).isOk = false
        rw [if_pos hgt]
        rfl
      simp [hc]
    · intro heq
      rw [hlid, hg]
      simp only [checkCapacity]
      have hcond : (lid != 0 && g != 0) = true := by
        simp only [Bool.and_eq_true, bne_iff_ne, ne_eq]
        exact ⟨hlid0, by omega⟩
      rw [if_pos hcond, hL]
      show (if g > L.max_guests then
        (Except.error "Number of guests exceeds maximum capacity." :
          Except String Unit) else Except.ok ()) = Except.ok ()
      rw [if_neg (by omega)]
  · intro hnone hg0
    rw [validate_isOk_eq, hlid, hg]
    have hc : (checkCapacity db (some lid) (some g)).isOk = false := by
      simp only [checkCapacity]
      have hcond : (lid != 0 && g != 0) = true := by
        simp only [Bool.and_eq_true, bne_iff_ne, ne_eq]
        exact ⟨hlid0, hg0⟩
      rw [if_pos hcond, hnone]
      rfl
    simp [hc]

/-- Witness for C6 at concrete inputs: 5 guests on a 4-guest listing is
rejected, 4 guests pass the capacity block, and a reference to an absent
listing is rejected. -/
theorem capacity_validation_witness :
    (validate oneListingDB 1 none dataFiveGuests).isOk = false ∧
    checkCapacity oneListingDB dataFourGuests.listing_id
      dataFourGuests.guests = Except.ok () ∧
    (validate { listings := [], bookings := [] } 1 none
      dataFourGuests).isOk = false :=
  ⟨((capacity_validation oneListingDB 1 none dataFiveGuests 1 5
      { id := 1, price_per_night := 100, max_guests := 4 } rfl rfl
      (by decide)).1 rfl (by decide)).1 (by decide),
   ((capacity_validation oneListingDB 1 none dataFourGuests 1 4
      { id := 1, price_per_night := 100, max_guests := 4 } rfl rfl
      (by decide)).1 rfl (by decide)).2 rfl,
   (capacity_validation { listings := [], bookings := [] } 1 none
      dataFourGuests 1 4 { id := 1, price_per_night := 100, max_guests := 4 }
      rfl rfl (by decide)).2 rfl (by decide)⟩

/-- Membership in the conflicting-bookings queryset unfolded: stored,
matching the filter, and surviving the exclude step. -/
lemma mem_conflictingBookings {db : DB} {lid cin cout : Int}
    {inst : Option Int} {b : Booking} :
    b ∈ conflictingBookings db lid cin cout inst ↔
      (b ∈ db.bookings ∧ conflictPred lid cin cout b = true ∧
       notExcluded inst b = true) := by
  cases inst with
  | none => simp [conflictingBookings, notExcluded, List.mem_filter]
  | some iid =>
    simp only [conflictingBookings, notExcluded, List.mem_filter,
      bne_iff_ne, ne_eq, and_assoc]

/-- C1: with both dates present, a truthy listing reference, and the
date and capacity blocks passing, BookingSerializer.validate rejects if
and only if some stored booking on the same listing with status pending
or confirmed, other than the one being updated, has
check_in_date < candidate checkout and check_out_date > candidate
checkin (half-open interval overlap). -/
theorem conflict_rejection_iff_overlap (db : DB) (today : Int)
    (inst : Option Int) (d : BookingData) (cin cout lid : Int)
    (hcin : d.check_in_date = some cin) (hcout : d.check_out_date = some cout)
    (hlid : d.listing_id = some lid) (hlid0 : lid ≠ 0)
    (hdates : checkDates today d.check_in_date d.check_out_date =
      Except.ok ())
    (hcap : checkCapacity db d.listing_id d.guests = Except.ok ()) :
    (validate db today inst d).isOk = false ↔
      ∃ b ∈ db.bookings, b.listing_id = lid ∧
        (b.status = "pending" ∨ b.status = "confirmed") ∧
        notExcluded inst b = true ∧
        b.check_in_date < cout ∧ b.check_out_date > cin := by
  rw [validate_isOk_eq, hdates, hcap, hcin, hcout, hlid]
  show (checkConflicts db inst (some cin) (some cout) (some lid)).isOk =
    false ↔ _
  simp only [checkConflicts]
  have hbne : (lid != 0) = true := by
    simp only [bne_iff_ne, ne_eq]
    exact hlid0
  rw [if_pos hbne]
  have key : ∀ cb : List Booking,
      (((if cb.isEmpty then (Except.ok () : Except String Unit)
        else Except.error
          "Listing is not available for the selected dates.").isOk) =
        false) ↔ cb ≠ [] := by
    intro cb
    cases cb <;> simp [Except.isOk, Except.toBool]
  rw [key]
  constructor
  · intro hne
    obtain ⟨b, hb⟩ := List.exists_mem_of_ne_nil _ hne
    rw [mem_conflictingBookings] at hb
    obtain ⟨hmem, hpred, hexc⟩ := hb
    simp only [conflictPred, Bool.and_eq_true, Bool.or_eq_true, beq_iff_eq,
      decide_eq_true_eq] at hpred
    exact ⟨b, hmem, hpred.1.1.1, hpred.1.1.2.symm, hexc, hpred.1.2, hpred.2⟩
  · rintro ⟨b, hmem, hlid2, hstat, hexc, hlt, hgt⟩
    intro heq
    have hb : b ∈ conflictingBookings db lid cin cout inst := by
      rw [mem_conflictingBookings]
      refine ⟨hmem, ?_, hexc⟩
      simp only [conflictPred, Bool.and_eq_true, Bool.or_eq_true, beq_iff_eq,
        decide_eq_true_eq]
      exact ⟨⟨⟨hlid2, hstat.symm⟩, hlt⟩, hgt⟩
    rw [heq] at hb
    exact absurd hb (List.not_mem_nil b)

/-- Witness for C1 at concrete inputs: against a stored pending booking
of listing 1 for days 1 to 5, a candidate for days 4 to 8 is rejected
and a candidate for days 5 to 8 validates. -/
theorem conflict_rejection_iff_overlap_witness :
    (validate busyDB 1 none dataJan48).isOk = false ∧
    (validate busyDB 1 none dataJan58).isOk = true :=
  ⟨(conflict_rejection_iff_overlap busyDB 1 none dataJan48 4 8 1 rfl rfl rfl
      (by decide) rfl rfl).mpr
    ⟨bookingJan15, by decide, by decide, Or.inl rfl, rfl, by decide,
      by decide⟩,
   by decide⟩

/-- What a successful create did: the data passed validate unchanged,
carried all required fields, the listing resolved, and exactly one row
was appended, with total_price set to price_per_night times the night
count. -/
lemma createBooking_ok_spec {db : DB} {today nid : Int} {d : BookingData}
    {db2 : DB} (h : createBooking db today nid d = Except.ok db2) :
    ∃ lid cin cout L,
      d.listing_id = some lid ∧ d.check_in_date = some cin ∧
      d.check_out_date = some cout ∧ getListing db lid = some L ∧
      validate db today none d = Except.ok d ∧
      db2.listings = db.listings ∧
      db2.bookings = db.bookings ++
        [{ id := nid, listing_id := lid, check_in_date := cin,
           check_out_date := cout, guests := d.guests.getD 1,
           total_price := L.price_per_night * (cout - cin),
           status := d.status.getD "pending" }] := by
  unfold createBooking at h
  split at h
  · exact Except.noConfusion h
  · rename_i vd hv
    split at h
    · rename_i lid cin cout hlid hcin hcout
      split at h
      · exact Except.noConfusion h
      · rename_i L hL
        injection h with h5
        have hvd : vd = d := ((validate_ok_iff db today none d vd).mp hv).1
        subst hvd
        exact ⟨lid, cin, cout, L, hlid, hcin, hcout, hL, hv,
          by rw [← h5], by rw [← h5]⟩
    · exact Except.noConfusion h

/-- What a successful update did: the data passed validate unchanged and
the stored row with the instance id took the supplied attributes, all
other rows untouched. -/
lemma updateBooking_ok_spec {db : DB} {today iid : Int} {d : BookingData}
    {db2 : DB} (h : updateBooking db today iid d = Except.ok db2) :
    validate db today (some iid) d = Except.ok d ∧
    db2.listings = db.listings ∧
    db2.bookings = db.bookings.map
      (fun b => if b.id == iid then applyUpdate b d else b) := by
  unfold updateBooking at h
  split at h
  · split at h
    · exact Except.noConfusion h
    · rename_i vd hv
      injection h with h5
      have hvd : vd = d := ((validate_ok_iff db today (some iid) d vd).mp hv).1
      subst hvd
      exact ⟨hv, by rw [← h5], by rw [← h5]⟩
  · exact Except.noConfusion h

/-- The in-place update of one row touches neither ids nor total_price
of any row. -/
lemma map_update_id_total (iid : Int) (d : BookingData) (l : List Booking) :
    (l.map (fun b => if b.id == iid then applyUpdate b d else b)).map
      (fun b => (b.id, b.total_price)) =
    l.map (fun b => (b.id, b.total_price)) := by
  induction l with
  | nil => rfl
  | cons a t ih =>
    simp only [List.map_cons, ih, List.cons.injEq, and_true]
    cases hc : a.id == iid with
    | true => simp [hc, applyUpdate]
    | false => simp [hc]

/-- C3: a booking created through the serializer on a listing priced p
per night, with checkin a and checkout b, is stored with
total_price = p times (b - a); nothing else is appended. -/
theorem create_total_price_eq (db : DB) (today nid : Int) (d : BookingData)
    (db2 : DB) (lid cin cout : Int) (L : Listing)
    (hlid : d.listing_id = some lid) (hcin : d.check_in_date = some cin)
    (hcout : d.check_out_date = some cout)
    (hL : getListing db lid = some L) (_hab : cin < cout)
    (h : createBooking db today nid d = Except.ok db2) :
    ∃ b : Booking, db2.bookings = db.bookings ++ [b] ∧
      b.total_price = L.price_per_night * (cout - cin) := by
  obtain ⟨lid2, cin2, cout2, L2, h1, h2, h3, h4, h5, h6, h7⟩ :=
    createBooking_ok_spec h
  rw [hlid] at h1
  rw [hcin] at h2
  rw [hcout] at h3
  injection h1 with e1
  injection h2 with e2
  injection h3 with e3
  subst e1
  subst e2
  subst e3
  rw [h4] at hL
  injection hL with e4
  subst e4
  exact ⟨_, h7, rfl⟩

/-- Witness for C3 at a concrete input: a 100-per-night listing booked
from day 1 to day 4 is stored with total_price 300 = 100 times 3. -/
theorem create_total_price_eq_witness :
    ∃ b : Booking, afterJan14DB.bookings = oneListingDB.bookings ++ [b] ∧
      b.total_price = 100 * (4 - 1) :=
  create_total_price_eq oneListingDB 1 1 dataJan14 afterJan14DB 1 1 4
    { id := 1, price_per_night := 100, max_guests := 4 } rfl rfl rfl rfl
    (by decide) rfl

/-- C9: an update through the serializer leaves the total_price of every
stored booking unchanged, whatever fields the update carries (dates,
listing or status); total_price is in read_only_fields, so it is not
client-writable and only create ever computes it. -/
theorem update_preserves_total_price (db : DB) (today iid : Int)
    (d : BookingData) (db2 : DB)
    (h : updateBooking db today iid d = Except.ok db2) :
    db2.bookings.map (fun b => (b.id, b.total_price)) =
      db.bookings.map (fun b => (b.id, b.total_price)) := by
  obtain ⟨hv, hls, hbs⟩ := updateBooking_ok_spec h
  rw [hbs]
  exact map_update_id_total iid d db.bookings

/-- Witness for C9 at a concrete input: updating the stored booking to
confirmed status leaves every total_price as it was. -/
theorem update_preserves_total_price_witness :
    confirmedDB.bookings.map (fun b => (b.id, b.total_price)) =
      busyDB.bookings.map (fun b => (b.id, b.total_price)) :=
  update_preserves_total_price busyDB 1 1 (dataStatusOnly "confirmed")
    confirmedDB rfl

/-- The no-overlap invariant in quantifier form. -/
lemma noOverlapB_iff (db : DB) :
    noOverlapB db = true ↔
      ∀ b1 ∈ db.bookings, ∀ b2 ∈ db.bookings, b1.id ≠ b2.id →
        overlapB b1 b2 = false := by
  simp only [noOverlapB, List.all_eq_true, Bool.or_eq_true, beq_iff_eq,
    Bool.not_eq_true']
  constructor
  · intro h b1 h1 b2 h2 hne
    exact (h b1 h1 b2 h2).resolve_left hne
  · intro h b1 h1 b2 h2
    by_cases he : b1.id = b2.id
    · exact Or.inl he
    · exact Or.inr (h b1 h1 b2 h2 he)

/-- Overlap of two bookings is symmetric. -/
lemma overlapB_comm (a b : Booking) : overlapB a b = overlapB b a := by
  simp only [overlapB, conflictPred, activeB]
  rw [Bool.eq_iff_iff]
  simp only [Bool.and_eq_true, Bool.or_eq_true, beq_iff_eq,
    decide_eq_true_eq]
  constructor
  · rintro ⟨h1, ⟨⟨h2, h3⟩, h4⟩, h5⟩
    exact ⟨h3, ⟨⟨h2.symm, h1⟩, h5⟩, h4⟩
  · rintro ⟨h1, ⟨⟨h2, h3⟩, h4⟩, h5⟩
    exact ⟨h3, ⟨⟨h2.symm, h1⟩, h5⟩, h4⟩

/-- A passing conflict check means no stored booking that survives the
exclude step matches the conflict filter. -/
lemma conflicts_ok_empty {db : DB} {inst : Option Int} {cin cout lid : Int}
    (hlid0 : lid ≠ 0)
    (h : checkConflicts db inst (some cin) (some cout) (some lid) =
      Except.ok ()) :
    ∀ b ∈ db.bookings, notExcluded inst b = true →
      conflictPred lid cin cout b = false := by
  simp only [checkConflicts] at h
  rw [if_pos (by simp only [bne_iff_ne, ne_eq]; exact hlid0)] at h
  by_cases he : (conflictingBookings db lid cin cout inst).isEmpty = true
  · have hnil : conflictingBookings db lid cin cout inst = [] :=
      List.isEmpty_iff.mp he
    intro b hb hex
    cases hp : conflictPred lid cin cout b with
    | false => rfl
    | true =>
      have hmem : b ∈ conflictingBookings db lid cin cout inst :=
        mem_conflictingBookings.mpr ⟨hb, hp, hex⟩
      rw [hnil] at hmem
      exact absurd hmem (List.not_mem_nil b)
  · rw [if_neg he] at h
    exact Except.noConfusion h

/-- The row rewrite of an update keeps every id in place. -/
lemma updFun_id (iid : Int) (d : BookingData) (a : Booking) :
    (if a.id == iid then applyUpdate a d else a).id = a.id := by
  split
  · rfl
  · rfl

/-- A truthy optional integer is a present nonzero value. -/
lemma intTruthy_some {o : Option Int} (h : intTruthy o = true) :
    ∃ v, o = some v ∧ v ≠ 0 := by
  cases o with
  | none => exact absurd h (by simp [intTruthy])
  | some v =>
    refine ⟨v, rfl, ?_⟩
    simpa [intTruthy] using h

/-- C2 (amended): one serializer operation preserves the no-overlap
invariant, provided stored listing ids are nonzero (so a resolving
listing reference is truthy) and, for an update, the data carries both
dates and a truthy listing reference; the counterexample theorem shows
the proviso on updates is necessary, because a status-only update skips
the conflict check. -/
theorem booking_overlap_invariant_preserved (today : Int) (db : DB)
    (op : Op) (hl : ∀ l ∈ db.listings, l.id ≠ 0)
    (hinv : noOverlapB db = true) (hop : opGood op) :
    noOverlapB (applyOp today db op) = true := by
  cases op with
  | create nid d =>
    simp only [applyOp]
    cases hc : createBooking db today nid d with
    | error e => exact hinv
    | ok db2 =>
      obtain ⟨lid, cin, cout, L, h1, h2, h3, h4, h5, h6, h7⟩ :=
        createBooking_ok_spec hc
      have hLmem : L ∈ db.listings := by
        have := List.mem_of_find?_eq_some h4
        exact this
      have hLid : L.id = lid := by
        have := List.find?_some h4
        simpa using this
      have hlid0 : lid ≠ 0 := hLid ▸ hl L hLmem
      have hconf := (((validate_ok_iff db today none d d).mp h5).2.2).2
      rw [h2, h3, h1] at hconf
      have hemp := conflicts_ok_empty hlid0 hconf
      rw [noOverlapB_iff, h7]
      intro b1 hb1 b2 hb2 hne
      rw [List.mem_append, List.mem_singleton] at hb1 hb2
      have hold := (noOverlapB_iff db).mp hinv
      rcases hb1 with hb1 | hb1 <;> rcases hb2 with hb2 | hb2
      · exact hold b1 hb1 b2 hb2 hne
      · subst hb2
        have hp := hemp b1 hb1 rfl
        simp [overlapB, hp]
      · subst hb1
        have hp := hemp b2 hb2 rfl
        rw [overlapB_comm]
        simp [overlapB, hp]
      · subst hb1
        subst hb2
        exact absurd rfl hne
  | update iid d =>
    simp only [applyOp]
    cases hc : updateBooking db today iid d with
    | error e => exact hinv
    | ok db2 =>
      obtain ⟨hv, hls, hbs⟩ := updateBooking_ok_spec hc
      obtain ⟨hsin, hsout, hstr⟩ := hop
      obtain ⟨cin, h2⟩ := Option.isSome_iff_exists.mp hsin
      obtain ⟨cout, h3⟩ := Option.isSome_iff_exists.mp hsout
      obtain ⟨lid, h1, hlid0⟩ := intTruthy_some hstr
      have hconf := (((validate_ok_iff db today (some iid) d d).mp hv).2.2).2
      rw [h2, h3, h1] at hconf
      have hemp := conflicts_ok_empty hlid0 hconf
      rw [noOverlapB_iff, hbs]
      intro x1 hx1 x2 hx2 hne
      rw [List.mem_map] at hx1 hx2
      obtain ⟨a1, ha1, hfa1⟩ := hx1
      obtain ⟨a2, ha2, hfa2⟩ := hx2
      have hold := (noOverlapB_iff db).mp hinv
      have e1u : (applyUpdate a1 d).listing_id = lid := by
        simp [applyUpdate, h1]
      have e2u : (applyUpdate a1 d).check_in_date = cin := by
        simp [applyUpdate, h2]
      have e3u : (applyUpdate a1 d).check_out_date = cout := by
        simp [applyUpdate, h3]
      have e1v : (applyUpdate a2 d).listing_id = lid := by
        simp [applyUpdate, h1]
      have e2v : (applyUpdate a2 d).check_in_date = cin := by
        simp [applyUpdate, h2]
      have e3v : (applyUpdate a2 d).check_out_date = cout := by
        simp [applyUpdate, h3]
      by_cases hc1 : a1.id = iid <;> by_cases hc2 : a2.id = iid
      · exfalso
        apply hne
        rw [← hfa1, ← hfa2, updFun_id, updFun_id, hc1, hc2]
      · have hx1e : x1 = applyUpdate a1 d := by
          rw [← hfa1, if_pos (beq_iff_eq.mpr hc1)]
        have hx2e : x2 = a2 := by
          rw [← hfa2, if_neg (by simp [hc2])]
        have hp := hemp a2 ha2 (by simp [notExcluded, bne_iff_ne, hc2])
        rw [hx1e, hx2e, overlapB_comm]
        unfold overlapB
        rw [e1u, e2u, e3u, hp, Bool.and_false]
      · have hx1e : x1 = a1 := by
          rw [← hfa1, if_neg (by simp [hc1])]
        have hx2e : x2 = applyUpdate a2 d := by
          rw [← hfa2, if_pos (beq_iff_eq.mpr hc2)]
        have hp := hemp a1 ha1 (by simp [notExcluded, bne_iff_ne, hc1])
        rw [hx1e, hx2e]
        unfold overlapB
        rw [e1v, e2v, e3v, hp, Bool.and_false]
      · have hx1e : x1 = a1 := by
          rw [← hfa1, if_neg (by simp [hc1])]
        have hx2e : x2 = a2 := by
          rw [← hfa2, if_neg (by simp [hc2])]
        rw [hx1e, hx2e] at hne
        rw [hx1e, hx2e]
        exact hold a1 ha1 a2 ha2 hne

/-- Witness for the amended C2 at a concrete input: creating the days
1 to 4 booking in the empty one-listing database keeps the invariant. -/
theorem booking_overlap_invariant_preserved_witness :
    noOverlapB (applyOp 1 oneListingDB (Op.create 1 dataJan14)) = true :=
  booking_overlap_invariant_preserved 1 oneListingDB (Op.create 1 dataJan14)
    (by decide) (by decide) trivial

/-- Counterexample to C2 as stated: the four cexOps operations all
succeed through the serializer, yet the final booking set holds two
distinct pending bookings of listing 1 for days 1 to 5 each, an
intersecting pair, because a status-only update carries no dates and no
listing reference and therefore skips the conflict check. -/
theorem booking_overlap_invariant_cex :
    allOk 0 oneListingDB cexOps = true ∧
    noOverlapB (runOps 0 oneListingDB cexOps) = false :=
  ⟨by decide, by decide⟩

end AlxTravel
